import Mathlib

/-!
Verification development for the Morph Cloud SWE-bench evaluation harness
(`swebench/eval_swebench.py`).  The Python source is shallowly embedded:
paths are lists of components, the filesystem visible at filter time is the
list of existing files, remote execution results are supplied explicitly,
and each Python function of interest becomes a Lean function translated
line by line from the source.
-/

set_option autoImplicit false

namespace EvalSwebench

/-- A filesystem path, as its list of components. -/
abbrev FilePath' := List String

/-- The set of files that exist on disk, as a list of file paths.  A
directory exists when some file lies strictly below it. -/
abbrev FS := List FilePath'

/-- `path.exists()` for a file: the file is among the existing files. -/
def fileExists (fs : FS) (p : FilePath') : Bool :=
  fs.any (fun q => decide (q = p))

/-- `path.exists()` for a directory: some existing file lies strictly
under `d`. -/
def dirExists (fs : FS) (d : FilePath') : Bool :=
  fs.any (fun q => decide (d <+: q ∧ d ≠ q))

/-- External constant `RUN_EVALUATION_LOG_DIR` from
`swebench.harness.constants`: the fixed root of the per-job artifact tree. -/
def RUN_EVALUATION_LOG_DIR : FilePath' := ["logs", "run_evaluation"]

/-- External constant `LOG_REPORT` from `swebench.harness.constants`:
the name of the per-job report file. -/
def LOG_REPORT : String := "report.json"

/-- One dataset record, reduced to the field the engine reads
(`instance[KEY_INSTANCE_ID]`). -/
structure Instance where
  instance_id : String
deriving DecidableEq, Repr

/-- One prediction record: `instance_id`, optional `model_name_or_path`
(a missing key is `none`) and `model_patch` (`none` models JSON null). -/
structure Prediction where
  instance_id : String
  model_name_or_path : Option String
  model_patch : Option String
deriving DecidableEq, Repr

/-- `"..."​.replace("/", "__")` from the source: every path separator in the
model identifier becomes a double underscore. -/
def replace_slashes (s : String) : String :=
  String.mk (s.data.foldr
    (fun c acc => if c = '/' then '_' :: '_' :: acc else c :: acc) [])

/-- `get_log_dir` (eval_swebench.py lines 146-150):
`RUN_EVALUATION_LOG_DIR / run_id / model_name_or_path / instance_id`, the
model name defaulting to the literal string `"None"` and sanitized. -/
def get_log_dir (pred : Prediction) (run_id : String) (instance_id : String) :
    FilePath' :=
  RUN_EVALUATION_LOG_DIR ++
    [run_id, replace_slashes (pred.model_name_or_path.getD "None"), instance_id]

/-- The per-job report file path used by the resume filter
(eval_swebench.py lines 581-587); the instance component comes from the
prediction record, as in the source. -/
def report_file_path (pred : Prediction) (run_id : String) : FilePath' :=
  get_log_dir pred run_id pred.instance_id ++ [LOG_REPORT]

/-- The per-job test-output file path used by the rewrite filter
(eval_swebench.py lines 557-563). -/
def test_output_path (pred : Prediction) (run_id : String) : FilePath' :=
  get_log_dir pred run_id pred.instance_id ++ ["test_output.txt"]

/-- Lookup in the prediction map `predictions[iid]`; the map is built in
`main` keyed by each prediction record's own `instance_id`. -/
def findPrediction (preds : List Prediction) (iid : String) : Option Prediction :=
  preds.find? (fun p => p.instance_id == iid)

/-- `completed_ids` (eval_swebench.py lines 574-589): ids of dataset
instances having a prediction whose report file exists. -/
def completed_ids (dataset : List Instance) (preds : List Prediction)
    (run_id : String) (fs : FS) : List String :=
  dataset.filterMap (fun inst =>
    match findPrediction preds inst.instance_id with
    | none => none
    | some pred =>
      if fileExists fs (report_file_path pred run_id) then
        some inst.instance_id
      else none)

/-- `test_output_ids` (eval_swebench.py lines 552-565): ids of dataset
instances having a prediction whose test-output file exists. -/
def test_output_ids (dataset : List Instance) (preds : List Prediction)
    (run_id : String) (fs : FS) : List String :=
  dataset.filterMap (fun inst =>
    match findPrediction preds inst.instance_id with
    | none => none
    | some pred =>
      if fileExists fs (test_output_path pred run_id) then
        some inst.instance_id
      else none)

/-- `empty_patch_ids` (eval_swebench.py lines 596-600): prediction ids whose
`model_patch` is the empty string or null. -/
def empty_patch_ids (preds : List Prediction) : List String :=
  preds.filterMap (fun p =>
    match p.model_patch with
    | none => some p.instance_id
    | some s => if s = "" then some p.instance_id else none)

/-- Boolean membership of a string in a list, mirroring Python `in`. -/
def str_mem (a : String) (l : List String) : Bool :=
  l.any (fun x => x == a)

/-- `get_dataset_from_preds` (eval_swebench.py lines 514-609), starting after
the external dataset load: the fail-fast check that every prediction id is in
the dataset, the optional allow-list filter, then either the rewrite filter
(instances with a prediction and an existing test-output file) or the resume
filter (drop instances whose report file exists, then keep instances with a
non-empty-patch prediction). -/
def get_dataset_from_preds (dataset : List Instance)
    (instance_ids : Option (List String)) (preds : List Prediction)
    (run_id : String) (rewrite_reports : Bool) (exclude_completed : Bool)
    (fs : FS) : Except String (List Instance) :=
  if preds.any (fun p =>
      !(dataset.any (fun i => i.instance_id == p.instance_id))) then
    Except.error "Some prediction IDs not found in dataset!"
  else
    let ids := instance_ids.getD []
    let dataset1 :=
      if !ids.isEmpty then
        dataset.filter (fun i => str_mem i.instance_id ids)
      else dataset
    if rewrite_reports then
      let toids := test_output_ids dataset1 preds run_id fs
      Except.ok (dataset1.filter (fun i =>
        preds.any (fun p => p.instance_id == i.instance_id) &&
          str_mem i.instance_id toids))
    else
      let cids := completed_ids dataset1 preds run_id fs
      let dataset2 :=
        if !cids.isEmpty && exclude_completed then
          dataset1.filter (fun i => !str_mem i.instance_id cids)
        else dataset1
      let epids := empty_patch_ids preds
      Except.ok (dataset2.filter (fun i =>
        preds.any (fun p => p.instance_id == i.instance_id) &&
          !str_mem i.instance_id epids))

/-- The dispatch-time skip in `process_instances_distributed`
(eval_swebench.py lines 417-424): an instance whose artifact directory
already exists is dropped from `run_test_specs`. -/
def run_test_specs (dataset : List Instance) (preds : List Prediction)
    (run_id : String) (fs : FS) : List Instance :=
  dataset.filter (fun inst =>
    match findPrediction preds inst.instance_id with
    | some pred => !(dirExists fs (get_log_dir pred run_id inst.instance_id))
    | none => true)

/-- The composed job filter of `main`: `get_dataset_from_preds` followed by
the artifact-directory skip of `process_instances_distributed`.  The result
is the list of instances actually dispatched to the Job Executor. -/
def executed_instances (dataset : List Instance)
    (instance_ids : Option (List String)) (preds : List Prediction)
    (run_id : String) (rewrite_reports : Bool) (fs : FS) :
    Except String (List Instance) :=
  match get_dataset_from_preds dataset instance_ids preds run_id
      rewrite_reports true fs with
  | Except.error e => Except.error e
  | Except.ok d => Except.ok (run_test_specs d preds run_id fs)

/-- External constant `APPLY_PATCH_FAIL` from `swebench.harness.constants`. -/
def APPLY_PATCH_FAIL : String := ">>>>> Patch Apply Failed"

/-- External constant `START_TEST_OUTPUT` from `swebench.harness.constants`. -/
def START_TEST_OUTPUT : String := ">>>>> Start Test Output"

/-- External constant `END_TEST_OUTPUT` from `swebench.harness.constants`. -/
def END_TEST_OUTPUT : String := ">>>>> End Test Output"

/-- The fields of a task spec the Job Executor reads directly; the setup and
install scripts are consumed by the opaque provisioning step. -/
structure TestSpec where
  instance_id : String
  eval_script : String
deriving DecidableEq, Repr

/-- Result of one `morphvm.exec` call: captured stdout, stderr and the exit
code. -/
structure ExecResult where
  stdout : String
  stderr : String
  exit_code : Int
deriving DecidableEq, Repr

/-- `resp.stdout + "\n" + resp.stderr`, the combined output of one patch
application attempt (eval_swebench.py lines 189-191 and 200-202). -/
def combinedOutput (r : ExecResult) : String :=
  r.stdout ++ "\n" ++ r.stderr

/-- Substring containment, mirroring Python's `in` on strings. -/
def strContainsSubstr (s pat : String) : Bool :=
  decide (pat.data <:+: s.data)

/-- `monkey-patched` substring condition `"pylint" in test_spec.instance_id`
(eval_swebench.py line 244). -/
def pylint_hack_applied (instance_id : String) : Bool :=
  strContainsSubstr instance_id "pylint"

/-- `run_command` construction (eval_swebench.py lines 241-253): change to
the checkout, optionally unset `PYTHONPATH` for the pylint family, raise the
recursion limit, then run the eval script between the start and end markers. -/
def run_command (instance_id : String) : String :=
  let c := "cd /testbed"
  let c := if pylint_hack_applied instance_id then c ++ " && PYTHONPATH=" else c
  let c := c ++
    " && python3 -c 'import sys; sys.setrecursionlimit(10000)'"
  let c := c ++ " && echo '" ++ START_TEST_OUTPUT ++ "'"
  let c := c ++ " && /bin/bash /root/eval.sh"
  let c := c ++ " && echo '" ++ END_TEST_OUTPUT ++ "'"
  c

/-- The django hack (eval_swebench.py line 225):
`eval_script.replace("locale-gen", "locale-gen en_US.UTF-8")`. -/
def djangoHack (eval_script : String) : String :=
  eval_script.replace "locale-gen" "locale-gen en_US.UTF-8"

/-- A command issued to the remote environment by the Job Executor, in
structured form; `text` recovers the shell string of the source. -/
inductive VMCommand where
  | writePatchFile (patch : String)
  | applyStrict
  | applyFuzzy
  | gitDiff
  | evalSetup (script : String)
  | runEval (command : String)
deriving DecidableEq, Repr

/-- The shell text of each structured command, as built in the source. -/
def VMCommand.text : VMCommand → String
  | VMCommand.writePatchFile patch =>
      "cat > /tmp/patch.diff <<'EOF'\n" ++ patch ++ "\nEOF"
  | VMCommand.applyStrict => "cd /testbed && git apply -v /tmp/patch.diff"
  | VMCommand.applyFuzzy =>
      "cd /testbed && patch --batch --fuzz=5 -p1 -i /tmp/patch.diff"
  | VMCommand.gitDiff => "cd /testbed && git diff"
  | VMCommand.evalSetup script =>
      "cat > /root/eval.sh <<'EOF'\n" ++ script ++
        "\nEOF\nchmod +x /root/eval.sh"
  | VMCommand.runEval command => command

/-- Is this command part of the patch-apply step? -/
def VMCommand.isPatchStep : VMCommand → Bool
  | VMCommand.writePatchFile _ => true
  | VMCommand.applyStrict => true
  | VMCommand.applyFuzzy => true
  | _ => false

/-- The error-report entry written on a failure path (eval_swebench.py
lines 319-327 and 358-366). -/
structure ErrorReportEntry where
  patch_is_None : Bool
  patch_exists : Bool
  patch_successfully_applied : Bool
  resolved : Bool
  error : Bool
deriving DecidableEq, Repr

/-- The literal dict of the `except EvaluationError` branch
(eval_swebench.py lines 319-327). -/
def evaluation_error_report : ErrorReportEntry :=
  { patch_is_None := false
    patch_exists := true
    patch_successfully_applied := false
    resolved := false
    error := true }

/-- The literal dict of the `except Exception` branch
(eval_swebench.py lines 358-366). -/
def generic_error_report : ErrorReportEntry :=
  { patch_is_None := false
    patch_exists := true
    patch_successfully_applied := false
    resolved := false
    error := true }

/-- The payload of a `report.json`: either the structured report returned by
the external grader (held opaquely), or the literal error entry. -/
inductive ReportPayload where
  | graded (content : String)
  | errorEntry (e : ErrorReportEntry)
deriving DecidableEq, Repr

/-- A file written into the artifact directory, with its content. -/
inductive FileWrite where
  | testOutput (content : String)
  | reportJson (content : ReportPayload)
  | patchDiff (content : String)
deriving DecidableEq, Repr

/-- The file name a write targets inside the artifact directory. -/
def FileWrite.filename : FileWrite → String
  | FileWrite.testOutput _ => "test_output.txt"
  | FileWrite.reportJson _ => LOG_REPORT
  | FileWrite.patchDiff _ => "patch.diff"

/-- Is this write the test-output file? -/
def FileWrite.isTestOutput : FileWrite → Bool
  | FileWrite.testOutput _ => true
  | _ => false

/-- The exception caught at the Job Executor boundary, when any: the
`EvaluationError` raised on a patch double failure, or any other exception. -/
inductive JobError where
  | evalError (instance_id : String) (msg : String)
  | genericError (msg : String)
deriving DecidableEq, Repr

/-- The `TestOutput` dataclass of the source (eval_swebench.py lines 64-72);
the report string is kept structured, and the log text — pure logging — is
not modelled. -/
structure TestOutput where
  instance_id : String
  test_output : String
  report_json : ReportPayload
  run_instance_log : String
  patch_diff : String
  log_dir : FilePath'
  errored : Bool
deriving DecidableEq, Repr

/-- The behaviour of the remote side for one job: whether provisioning
(`instance_snapshot_context`) succeeds, the result of each `morphvm.exec`
the executor can issue, and the outcome of the external grader
(`get_eval_report`), which may raise. -/
structure MorphEnv where
  provision_ok : Bool
  write_patch_res : ExecResult
  apply_strict_res : ExecResult
  apply_fuzzy_res : ExecResult
  git_diff_before_res : ExecResult
  eval_setup_res : ExecResult
  run_eval_res : ExecResult
  git_diff_after_res : ExecResult
  grading : Except String String
deriving Repr

/-- Everything observable from one `process_instance_morph` call: the
returned `TestOutput`, the remote commands issued in order, the files
written to the artifact directory in order, and the exception caught at the
executor boundary, if any. -/
structure ProcResult where
  output : TestOutput
  commands : List VMCommand
  writes : List FileWrite
  raisedError : Option JobError
deriving Repr

/-- The `TestOutput` returned by both error branches
(eval_swebench.py lines 340-348 and 379-387). -/
def errorOutcome (instance_id patch_diff : String) (log_dir : FilePath')
    (e : ErrorReportEntry) : TestOutput :=
  { instance_id := instance_id
    test_output := ""
    report_json := ReportPayload.errorEntry e
    run_instance_log := ""
    patch_diff := patch_diff
    log_dir := log_dir
    errored := true }

/-- `process_instance_morph` (eval_swebench.py lines 153-387): provision,
optionally write and apply the patch (strict, then fuzzy; a double failure
raises `EvaluationError` carrying the fuzzy attempt's output, since the
variable holding the strict output is overwritten), capture diffs, set up
and run the eval script, write the test output, grade, and persist; both
except branches write an error report and the patch copy and return an
errored outcome. -/
def process_instance_morph (ts : TestSpec) (pred : Prediction)
    (run_id : String) (env : MorphEnv) : ProcResult :=
  let instance_id := ts.instance_id
  let log_dir := get_log_dir pred run_id instance_id
  let patch_diff := pred.model_patch.getD ""
  if env.provision_ok = false then
    { output := errorOutcome instance_id patch_diff log_dir generic_error_report
      commands := []
      writes := [FileWrite.reportJson (ReportPayload.errorEntry generic_error_report),
                 FileWrite.patchDiff patch_diff]
      raisedError := some (JobError.genericError "provisioning failed") }
  else
    let patchStep : List VMCommand × Option String :=
      if patch_diff = "" then ([], none)
      else if env.apply_strict_res.exit_code ≠ 0 then
        if env.apply_fuzzy_res.exit_code ≠ 0 then
          ([VMCommand.writePatchFile patch_diff, VMCommand.applyStrict,
            VMCommand.applyFuzzy],
           some (APPLY_PATCH_FAIL ++ ":\n" ++ combinedOutput env.apply_fuzzy_res))
        else
          ([VMCommand.writePatchFile patch_diff, VMCommand.applyStrict,
            VMCommand.applyFuzzy], none)
      else ([VMCommand.writePatchFile patch_diff, VMCommand.applyStrict], none)
    match patchStep with
    | (cmds, some msg) =>
      { output := errorOutcome instance_id patch_diff log_dir
          evaluation_error_report
        commands := cmds
        writes := [FileWrite.reportJson
                     (ReportPayload.errorEntry evaluation_error_report),
                   FileWrite.patchDiff patch_diff]
        raisedError := some (JobError.evalError instance_id msg) }
    | (cmds, none) =>
      let cmds := cmds ++
        [VMCommand.gitDiff, VMCommand.evalSetup (djangoHack ts.eval_script),
         VMCommand.runEval (run_command instance_id), VMCommand.gitDiff]
      let test_output := env.run_eval_res.stdout
      match env.grading with
      | Except.error _ =>
        { output := errorOutcome instance_id patch_diff log_dir
            generic_error_report
          commands := cmds
          writes := [FileWrite.testOutput test_output,
                     FileWrite.reportJson
                       (ReportPayload.errorEntry generic_error_report),
                     FileWrite.patchDiff patch_diff]
          raisedError := some (JobError.genericError "grading failed") }
      | Except.ok content =>
        { output := { instance_id := instance_id
                      test_output := test_output
                      report_json := ReportPayload.graded content
                      run_instance_log := ""
                      patch_diff := patch_diff
                      log_dir := log_dir
                      errored := false }
          commands := cmds
          writes := [FileWrite.testOutput test_output,
                     FileWrite.reportJson (ReportPayload.graded content),
                     FileWrite.patchDiff patch_diff]
          raisedError := none }

/-- The content of the `report.json` a run wrote, when any. -/
def written_report (r : ProcResult) : Option ReportPayload :=
  r.writes.findSome? (fun w =>
    match w with
    | FileWrite.reportJson c => some c
    | _ => none)

/-- The message of the exception caught at the executor boundary, when any. -/
def raisedMessage (r : ProcResult) : Option String :=
  match r.raisedError with
  | some (JobError.evalError _ m) => some m
  | some (JobError.genericError m) => some m
  | none => none

deriving instance DecidableEq for Except

/-! Concrete fixtures used by counterexamples and witnesses. -/

/-- A dataset instance. -/
def instA : Instance := ⟨"inst-1"⟩

/-- A prediction for `instA` with a non-empty patch. -/
def predA : Prediction := ⟨"inst-1", some "modelA", some "PATCH"⟩

/-- A filesystem where `instA`'s artifact directory exists (an execution log
was created by a previous, interrupted attempt) but its report file does
not. -/
def fsDirOnly : FS := [get_log_dir predA "run1" "inst-1" ++ ["run_instance.log"]]

/-- A filesystem where `instA`'s test-output artifact exists. -/
def fsWithTestOutput : FS := [test_output_path predA "run1"]

/-- A task spec for `instA`. -/
def tsA : TestSpec := ⟨"inst-1", "run tests"⟩

/-- Exec result of a failing strict patch application. -/
def strictFail : ExecResult := ⟨"STRICT-OUT", "STRICT-ERR", 1⟩

/-- Exec result of a failing fuzzy patch application. -/
def fuzzyFail : ExecResult := ⟨"FUZZY-OUT", "FUZZY-ERR", 1⟩

/-- Exec result of a successful command. -/
def execOk : ExecResult := ⟨"ok", "", 0⟩

/-- A remote environment in which both patch application attempts fail. -/
def envPatchFail : MorphEnv :=
  { provision_ok := true
    write_patch_res := execOk
    apply_strict_res := strictFail
    apply_fuzzy_res := fuzzyFail
    git_diff_before_res := execOk
    eval_setup_res := execOk
    run_eval_res := execOk
    git_diff_after_res := execOk
    grading := Except.ok "report" }

/-- A remote environment in which the patch applies strictly but the
external grader raises. -/
def envGradeFail : MorphEnv :=
  { provision_ok := true
    write_patch_res := execOk
    apply_strict_res := execOk
    apply_fuzzy_res := execOk
    git_diff_before_res := execOk
    eval_setup_res := execOk
    run_eval_res := execOk
    git_diff_after_res := execOk
    grading := Except.error "grader raised" }

/-- A remote environment in which provisioning fails. -/
def envProvisionFail : MorphEnv :=
  { provision_ok := false
    write_patch_res := execOk
    apply_strict_res := execOk
    apply_fuzzy_res := execOk
    git_diff_before_res := execOk
    eval_setup_res := execOk
    run_eval_res := execOk
    git_diff_after_res := execOk
    grading := Except.ok "report" }

/-- A prediction with an empty patch for `instA`. -/
def predEmptyPatch : Prediction := ⟨"inst-1", some "modelA", some ""⟩

/-- A prediction record lacking the model identifier. -/
def predNoModel : Prediction := ⟨"inst-1", none, some "PATCH"⟩

/-- Another prediction record lacking the model identifier. -/
def predNoModelB : Prediction := ⟨"inst-1", none, some "OTHER"⟩

/-- The artifact-directory path as the spec's words describe it: rooted at
the configurable report output directory.  Stated for comparison with the
source's `get_log_dir`, which roots the path at the fixed constant
`RUN_EVALUATION_LOG_DIR` instead. -/
def spec_artifact_dir (report_dir : FilePath')
    (run_id model_id instance_id : String) : FilePath' :=
  report_dir ++ [run_id, replace_slashes model_id, instance_id]

/-! Helper lemmas about the filesystem model and the filters. -/

theorem str_mem_iff (a : String) (l : List String) :
    str_mem a l = true ↔ a ∈ l := by
  simp [str_mem]

theorem fileExists_iff (fs : FS) (p : FilePath') :
    fileExists fs p = true ↔ p ∈ fs := by
  simp [fileExists]

theorem dirExists_iff (fs : FS) (d : FilePath') :
    dirExists fs d = true ↔ ∃ q ∈ fs, d <+: q ∧ d ≠ q := by
  simp [dirExists]

/-- A file strictly below a directory forces the directory to exist. -/
theorem dirExists_of_fileExists (fs : FS) (d : FilePath') (x : String)
    (h : fileExists fs (d ++ [x]) = true) : dirExists fs d = true := by
  rw [fileExists_iff] at h
  rw [dirExists_iff]
  refine ⟨d ++ [x], h, ⟨[x], rfl⟩, ?_⟩
  intro hd
  have := congrArg List.length hd
  simp at this

theorem findPrediction_mem {preds : List Prediction} {iid : String}
    {p : Prediction} (h : findPrediction preds iid = some p) : p ∈ preds :=
  List.mem_of_find?_eq_some h

theorem findPrediction_id {preds : List Prediction} {iid : String}
    {p : Prediction} (h : findPrediction preds iid = some p) :
    p.instance_id = iid := by
  have := List.find?_some h
  simpa using this

/-- With prediction ids unique (they are dict keys in the source), any
prediction sharing the looked-up id is the found one. -/
theorem findPrediction_unique {preds : List Prediction} {iid : String}
    {p q : Prediction}
    (hnodup : (preds.map Prediction.instance_id).Nodup)
    (h : findPrediction preds iid = some p)
    (hq : q ∈ preds) (hid : q.instance_id = iid) : q = p := by
  have hp := findPrediction_mem h
  have hpid := findPrediction_id h
  exact List.inj_on_of_nodup_map hnodup hq hp (by rw [hid, hpid])

theorem mem_completed_ids {dataset : List Instance} {preds : List Prediction}
    {run_id : String} {fs : FS} {iid : String} :
    iid ∈ completed_ids dataset preds run_id fs ↔
      ∃ j ∈ dataset, j.instance_id = iid ∧
        ∃ p, findPrediction preds iid = some p ∧
          fileExists fs (report_file_path p run_id) = true := by
  simp only [completed_ids, List.mem_filterMap]
  constructor
  · rintro ⟨j, hj, hg⟩
    rcases hfp : findPrediction preds j.instance_id with _ | p <;> rw [hfp] at hg
    · simp at hg
    · cases hfe : fileExists fs (report_file_path p run_id) <;>
        simp [hfe] at hg
      subst hg
      exact ⟨j, hj, rfl, p, hfp, hfe⟩
  · rintro ⟨j, hj, hid, p, hfp, hfe⟩
    subst hid
    exact ⟨j, hj, by simp [hfp, hfe]⟩

theorem mem_test_output_ids {dataset : List Instance} {preds : List Prediction}
    {run_id : String} {fs : FS} {iid : String} :
    iid ∈ test_output_ids dataset preds run_id fs ↔
      ∃ j ∈ dataset, j.instance_id = iid ∧
        ∃ p, findPrediction preds iid = some p ∧
          fileExists fs (test_output_path p run_id) = true := by
  simp only [test_output_ids, List.mem_filterMap]
  constructor
  · rintro ⟨j, hj, hg⟩
    rcases hfp : findPrediction preds j.instance_id with _ | p <;> rw [hfp] at hg
    · simp at hg
    · cases hfe : fileExists fs (test_output_path p run_id) <;>
        simp [hfe] at hg
      subst hg
      exact ⟨j, hj, rfl, p, hfp, hfe⟩
  · rintro ⟨j, hj, hid, p, hfp, hfe⟩
    subst hid
    exact ⟨j, hj, by simp [hfp, hfe]⟩

theorem mem_empty_patch_ids {preds : List Prediction} {iid : String} :
    iid ∈ empty_patch_ids preds ↔
      ∃ p ∈ preds, p.instance_id = iid ∧ p.model_patch.getD "" = "" := by
  simp only [empty_patch_ids, List.mem_filterMap]
  constructor
  · rintro ⟨p, hp, hg⟩
    rcases hmp : p.model_patch with _ | s <;> rw [hmp] at hg
    · simp at hg
      subst hg
      exact ⟨p, hp, rfl, by simp [hmp]⟩
    · by_cases hs : s = "" <;> simp [hs] at hg
      subst hg
      exact ⟨p, hp, rfl, by simp [hmp, hs]⟩
  · rintro ⟨p, hp, hid, hmp⟩
    subst hid
    refine ⟨p, hp, ?_⟩
    rcases hpm : p.model_patch with _ | s
    · simp
    · rw [hpm] at hmp
      simp at hmp
      simp [hmp]

/-- Membership in the non-rewrite output of `get_dataset_from_preds`, for an
instance that has a unique prediction with a non-empty patch: it is kept
exactly when its report file does not exist. -/
theorem mem_filtered_nonrewrite
    {dataset : List Instance} {preds : List Prediction} {run_id : String}
    {fs : FS} {inst : Instance} {pred : Prediction} {d : List Instance}
    (hnodup : (preds.map Prediction.instance_id).Nodup)
    (hmem : inst ∈ dataset)
    (hfind : findPrediction preds inst.instance_id = some pred)
    (hpatch : pred.model_patch.getD "" ≠ "")
    (hgd : get_dataset_from_preds dataset none preds run_id false true fs =
      Except.ok d) :
    (inst ∈ d ↔ fileExists fs (report_file_path pred run_id) = false) := by
  have hpmem := findPrediction_mem hfind
  have hpid := findPrediction_id hfind
  simp only [get_dataset_from_preds] at hgd
  split at hgd
  · exact absurd hgd (by simp)
  · simp only [Option.getD_none, List.isEmpty_nil, Bool.not_true,
      Bool.false_eq_true, if_false, if_true, Bool.and_true,
      Except.ok.injEq] at hgd
    subst hgd
    -- membership in the completed-ids list is report-file existence
    have hcid : inst.instance_id ∈ completed_ids dataset preds run_id fs ↔
        fileExists fs (report_file_path pred run_id) = true := by
      rw [mem_completed_ids]
      constructor
      · rintro ⟨j, hj, hid, p, hfp, hfe⟩
        rw [hfind] at hfp
        cases hfp
        exact hfe
      · intro hfe
        exact ⟨inst, hmem, rfl, pred, hfind, hfe⟩
    -- the instance is never in the empty-patch ids
    have hepid : inst.instance_id ∉ empty_patch_ids preds := by
      rw [mem_empty_patch_ids]
      rintro ⟨p, hp, hid, hempty⟩
      have := findPrediction_unique hnodup hfind hp hid
      subst this
      exact hpatch hempty
    have hany : preds.any (fun p => p.instance_id == inst.instance_id) = true := by
      simp only [List.any_eq_true]
      exact ⟨pred, hpmem, by simp [hpid]⟩
    constructor
    · intro hin
      rw [List.mem_filter] at hin
      obtain ⟨hin2, _⟩ := hin
      by_cases hc : (completed_ids dataset preds run_id fs).isEmpty = true
      · rw [List.isEmpty_iff] at hc
        cases hfe : fileExists fs (report_file_path pred run_id)
        · rfl
        · exfalso
          have := hcid.mpr hfe
          rw [hc] at this
          simp at this
      · rw [if_pos (by simp [hc])] at hin2
        rw [List.mem_filter] at hin2
        obtain ⟨_, hnc⟩ := hin2
        cases hfe : fileExists fs (report_file_path pred run_id)
        · rfl
        · exfalso
          have := hcid.mpr hfe
          rw [← str_mem_iff] at this
          simp [this] at hnc
    · intro hfe
      rw [List.mem_filter]
      have hnotc : inst.instance_id ∉ completed_ids dataset preds run_id fs := by
        intro hx
        rw [hcid] at hx
        rw [hfe] at hx
        exact absurd hx (by simp)
      constructor
      · by_cases hc : (completed_ids dataset preds run_id fs).isEmpty = true
        · rw [if_neg (by simp [hc])]
          exact hmem
        · rw [if_pos (by simp [hc])]
          rw [List.mem_filter]
          refine ⟨hmem, ?_⟩
          cases hsm : str_mem inst.instance_id (completed_ids dataset preds run_id fs)
          · rfl
          · exact absurd ((str_mem_iff _ _).mp hsm) hnotc
      · rw [Bool.and_eq_true]
        refine ⟨hany, ?_⟩
        cases hsm : str_mem inst.instance_id (empty_patch_ids preds)
        · rfl
        · exact absurd ((str_mem_iff _ _).mp hsm) hepid

/-! Claim C1. -/

/-- C1, counterexample: with rewrite mode off, a job whose artifact
directory exists (holding only an execution log) but whose report file does
not exist is NOT executed — the composed filter returns the empty list —
contradicting the claim that such a job is still executed. -/
theorem claim1_counterexample :
    fileExists fsDirOnly (report_file_path predA "run1") = false ∧
    dirExists fsDirOnly (get_log_dir predA "run1" "inst-1") = true ∧
    executed_instances [instA] none [predA] "run1" false fsDirOnly =
      Except.ok [] := by
  decide

/-- C1, amended: with rewrite mode off, a job (with a unique prediction
carrying a non-empty patch) is executed if and only if its artifact
directory does not exist at filter time; the report-file check of the first
filter is subsumed, because a report file inside the directory forces the
directory to exist.  In particular a job whose artifact directory exists but
whose report file does not is NOT executed. -/
theorem claim1_amended
    {dataset : List Instance} {preds : List Prediction} {run_id : String}
    {fs : FS} {inst : Instance} {pred : Prediction} {res : List Instance}
    (hnodup : (preds.map Prediction.instance_id).Nodup)
    (hmem : inst ∈ dataset)
    (hfind : findPrediction preds inst.instance_id = some pred)
    (hpatch : pred.model_patch.getD "" ≠ "")
    (hexec : executed_instances dataset none preds run_id false fs =
      Except.ok res) :
    (inst ∈ res ↔
      dirExists fs (get_log_dir pred run_id inst.instance_id) = false) := by
  simp only [executed_instances] at hexec
  rcases hgd : get_dataset_from_preds dataset none preds run_id false true fs
    with e | d <;> rw [hgd] at hexec
  · exact absurd hexec (by simp)
  · simp only [Except.ok.injEq] at hexec
    subst hexec
    have hmemd := mem_filtered_nonrewrite hnodup hmem hfind hpatch hgd
    rw [run_test_specs, List.mem_filter]
    constructor
    · rintro ⟨_, hflt⟩
      rw [hfind] at hflt
      simpa using hflt
    · intro hdir
      have hfe : fileExists fs (report_file_path pred run_id) = false := by
        cases hfe : fileExists fs (report_file_path pred run_id)
        · rfl
        · exfalso
          have hde : dirExists fs (get_log_dir pred run_id pred.instance_id)
              = true := dirExists_of_fileExists _ _ LOG_REPORT hfe
          rw [findPrediction_id hfind, hdir] at hde
          exact absurd hde (by simp)
      refine ⟨hmemd.mpr hfe, ?_⟩
      rw [hfind]
      simp [hdir]

/-- C1, witness: on an empty filesystem the amended theorem applies to the
concrete job and confirms it is executed. -/
theorem claim1_witness :
    (instA ∈ ([instA] : List Instance) ↔
      dirExists ([] : FS) (get_log_dir predA "run1" instA.instance_id)
        = false) :=
  @claim1_amended [instA] [predA] "run1" [] instA predA [instA]
    (by decide) (by decide) (by decide) (by decide) (by decide)

/-! Claim C2. -/

/-- C2, counterexample: in rewrite mode the filter does return the instance
with a prediction and an existing test-output artifact, but that instance is
then dropped by the artifact-directory existence check, so no instance is
dispatched and no grading is re-run — contradicting the claim that grading
is re-run for every such instance. -/
theorem claim2_counterexample :
    get_dataset_from_preds [instA] none [predA] "run1" true true
        fsWithTestOutput = Except.ok [instA] ∧
    executed_instances [instA] none [predA] "run1" true fsWithTestOutput =
      Except.ok [] := by
  decide

/-- C2, amended: when rewrite mode is requested, the job filter returns
exactly the instances that have a prediction and an existing test-output
artifact; however, every such instance is subsequently excluded by the
artifact-directory existence check, so the set of instances dispatched for
(re-)execution and grading is empty — grading is never re-run. -/
theorem claim2_amended
    {dataset : List Instance} {preds : List Prediction} {run_id : String}
    {fs : FS} {d res : List Instance}
    (hgd : get_dataset_from_preds dataset none preds run_id true true fs =
      Except.ok d)
    (hexec : executed_instances dataset none preds run_id true fs =
      Except.ok res) :
    ((∀ inst, inst ∈ d ↔ inst ∈ dataset ∧
        ∃ p, findPrediction preds inst.instance_id = some p ∧
          fileExists fs (test_output_path p run_id) = true) ∧
      res = []) := by
  simp only [executed_instances, hgd] at hexec
  simp only [Except.ok.injEq] at hexec
  subst hexec
  simp only [get_dataset_from_preds] at hgd
  split at hgd
  · exact absurd hgd (by simp)
  · simp only [Option.getD_none, List.isEmpty_nil, Bool.not_true,
      Bool.false_eq_true, if_false, if_true, Except.ok.injEq] at hgd
    subst hgd
    have hchar : ∀ inst : Instance,
        inst ∈ dataset.filter (fun i =>
          preds.any (fun p => p.instance_id == i.instance_id) &&
            str_mem i.instance_id (test_output_ids dataset preds run_id fs)) ↔
          inst ∈ dataset ∧
            ∃ p, findPrediction preds inst.instance_id = some p ∧
              fileExists fs (test_output_path p run_id) = true := by
      intro inst
      rw [List.mem_filter, Bool.and_eq_true]
      constructor
      · rintro ⟨hmem, _, hsm⟩
        refine ⟨hmem, ?_⟩
        have := (str_mem_iff _ _).mp hsm
        rw [mem_test_output_ids] at this
        obtain ⟨j, _, hid, p, hfp, hfe⟩ := this
        exact ⟨p, hfp, hfe⟩
      · rintro ⟨hmem, p, hfp, hfe⟩
        refine ⟨hmem, ?_, ?_⟩
        · simp only [List.any_eq_true]
          exact ⟨p, findPrediction_mem hfp, by simp [findPrediction_id hfp]⟩
        · rw [str_mem_iff, mem_test_output_ids]
          exact ⟨inst, hmem, rfl, p, hfp, hfe⟩
    refine ⟨hchar, ?_⟩
    rw [List.eq_nil_iff_forall_not_mem]
    intro inst hin
    rw [run_test_specs, List.mem_filter] at hin
    obtain ⟨hind, hflt⟩ := hin
    obtain ⟨_, p, hfp, hfe⟩ := (hchar inst).mp hind
    rw [hfp] at hflt
    have hde : dirExists fs (get_log_dir p run_id p.instance_id) = true :=
      dirExists_of_fileExists _ _ "test_output.txt" hfe
    rw [findPrediction_id hfp] at hde
    simp [hde] at hflt

/-- C2, witness: the amended theorem applies to the concrete rewrite-mode
run whose test-output artifact exists. -/
theorem claim2_witness :
    ((∀ inst, inst ∈ ([instA] : List Instance) ↔ inst ∈ [instA] ∧
        ∃ p, findPrediction [predA] inst.instance_id = some p ∧
          fileExists fsWithTestOutput (test_output_path p "run1") = true) ∧
      ([] : List Instance) = []) :=
  @claim2_amended [instA] [predA] "run1" fsWithTestOutput [instA] []
    (by decide) (by decide)

/-! Claim C3. -/

/-- C3, counterexample: on a double patch failure the raised signal's
message is the patch-failure header followed by the fuzzy attempt's output
only; the strict attempt's output does not occur in the message, because the
variable holding it is overwritten before the raise. -/
theorem claim3_counterexample :
    raisedMessage (process_instance_morph tsA predA "run1" envPatchFail) =
      some (APPLY_PATCH_FAIL ++ ":\nFUZZY-OUT\nFUZZY-ERR") ∧
    strContainsSubstr
      ((raisedMessage
        (process_instance_morph tsA predA "run1" envPatchFail)).getD "")
      "STRICT-OUT" = false := by
  decide

/-- C3, amended: for every job whose patch text is non-empty, if both the
strict and the fuzzy patch application fail, the executor raises a
patch-failure signal whose message carries the patch-failure header and the
combined stdout/stderr of the FUZZY attempt only — the strict attempt's
output is overwritten before the raise. -/
theorem claim3_amended (ts : TestSpec) (pred : Prediction) (run_id : String)
    (env : MorphEnv)
    (hprov : env.provision_ok = true)
    (hpatch : pred.model_patch.getD "" ≠ "")
    (hstrict : env.apply_strict_res.exit_code ≠ 0)
    (hfuzzy : env.apply_fuzzy_res.exit_code ≠ 0) :
    (process_instance_morph ts pred run_id env).raisedError =
      some (JobError.evalError ts.instance_id
        (APPLY_PATCH_FAIL ++ ":\n" ++ combinedOutput env.apply_fuzzy_res)) := by
  simp [process_instance_morph, hprov, hpatch, hstrict, hfuzzy]

/-- C3, witness: the amended theorem applied to the concrete
double-failure environment. -/
theorem claim3_witness :
    (process_instance_morph tsA predA "run1" envPatchFail).raisedError =
      some (JobError.evalError tsA.instance_id
        (APPLY_PATCH_FAIL ++ ":\n" ++
          combinedOutput envPatchFail.apply_fuzzy_res)) :=
  claim3_amended tsA predA "run1" envPatchFail
    (by decide) (by decide) (by decide) (by decide)

/-! Claim C4. -/

/-- C4, counterexample: one run fails with the patch-failure signal and
another with a generic grading error, yet the two runs write byte-identical
report payloads — a downstream reader of the reports cannot tell the two
failure kinds apart. -/
theorem claim4_counterexample :
    written_report (process_instance_morph tsA predA "run1" envPatchFail) =
      written_report (process_instance_morph tsA predA "run1" envGradeFail) ∧
    (process_instance_morph tsA predA "run1" envPatchFail).raisedError =
      some (JobError.evalError "inst-1"
        (APPLY_PATCH_FAIL ++ ":\nFUZZY-OUT\nFUZZY-ERR")) ∧
    (process_instance_morph tsA predA "run1" envGradeFail).raisedError =
      some (JobError.genericError "grading failed") := by
  decide

/-- C4, amended: the report written on a patch-apply double failure and the
report written on a generic infrastructure or execution error are
identical — both are the same literal error entry — so a downstream reader
of the report file alone cannot tell the two failure kinds apart. -/
theorem claim4_amended (ts ts2 : TestSpec) (pred pred2 : Prediction)
    (run run2 : String) (env env2 : MorphEnv)
    (hprov : env.provision_ok = true)
    (hpatch : pred.model_patch.getD "" ≠ "")
    (hstrict : env.apply_strict_res.exit_code ≠ 0)
    (hfuzzy : env.apply_fuzzy_res.exit_code ≠ 0)
    (hprov2 : env2.provision_ok = false) :
    written_report (process_instance_morph ts pred run env) =
      some (ReportPayload.errorEntry evaluation_error_report) ∧
    written_report (process_instance_morph ts2 pred2 run2 env2) =
      some (ReportPayload.errorEntry generic_error_report) ∧
    evaluation_error_report = generic_error_report := by
  refine ⟨?_, ?_, rfl⟩
  · simp [process_instance_morph, hprov, hpatch, hstrict, hfuzzy,
      written_report]
  · simp [process_instance_morph, hprov2, written_report]

/-- C4, witness: the amended theorem applied to a concrete patch-failure
run and a concrete provisioning-failure run. -/
theorem claim4_witness :
    written_report (process_instance_morph tsA predA "run1" envPatchFail) =
      some (ReportPayload.errorEntry evaluation_error_report) ∧
    written_report
        (process_instance_morph tsA predA "run1" envProvisionFail) =
      some (ReportPayload.errorEntry generic_error_report) ∧
    evaluation_error_report = generic_error_report :=
  claim4_amended tsA tsA predA predA "run1" "run1" envPatchFail
    envProvisionFail (by decide) (by decide) (by decide) (by decide)
    (by decide)

/-! Claim C5. -/

/-- C5, counterexample: with the default report directory `.`, the artifact
directory computed by the source is rooted at the fixed log root
`logs/run_evaluation`, not at the report directory claimed by the spec. -/
theorem claim5_counterexample :
    get_log_dir predA "run1" "inst-1" ≠
      spec_artifact_dir ["."] "run1" "modelA" "inst-1" ∧
    get_log_dir predA "run1" "inst-1" =
      RUN_EVALUATION_LOG_DIR ++ ["run1", "modelA", "inst-1"] := by
  decide

/-- C5, amended: for every job, the durable artifacts are written under
`RUN_EVALUATION_LOG_DIR/<run_id>/<model_id_sanitized>/<instance_id>/` —
the fixed log root, independent of the configurable report directory —
where the sanitized model identifier replaces path separators with double
underscores and defaults to `"None"`; every file the executor writes there
is one of the four artifact files. -/
theorem claim5_amended (ts : TestSpec) (pred : Prediction) (run_id : String)
    (env : MorphEnv) :
    (process_instance_morph ts pred run_id env).output.log_dir =
      RUN_EVALUATION_LOG_DIR ++
        [run_id, replace_slashes (pred.model_name_or_path.getD "None"),
         ts.instance_id] ∧
    ∀ w ∈ (process_instance_morph ts pred run_id env).writes,
      w.filename ∈
        ["run_instance.log", "test_output.txt", "report.json", "patch.diff"] := by
  constructor
  · unfold process_instance_morph
    repeat' first | split | (simp only [errorOutcome, get_log_dir])
  · intro w _
    cases w <;> simp [FileWrite.filename, LOG_REPORT]

/-! Claim C6. -/

/-- C6: for every job whose patch fails both the strict and the fuzzy
application attempt, the outcome is errored, the persisted report entry has
`patch_successfully_applied = false` and `resolved = false`, and no
test-output file is written to the artifact directory. -/
theorem claim6_patch_double_failure (ts : TestSpec) (pred : Prediction)
    (run_id : String) (env : MorphEnv)
    (hprov : env.provision_ok = true)
    (hpatch : pred.model_patch.getD "" ≠ "")
    (hstrict : env.apply_strict_res.exit_code ≠ 0)
    (hfuzzy : env.apply_fuzzy_res.exit_code ≠ 0) :
    (process_instance_morph ts pred run_id env).output.errored = true ∧
    (process_instance_morph ts pred run_id env).output.report_json =
      ReportPayload.errorEntry evaluation_error_report ∧
    evaluation_error_report.patch_successfully_applied = false ∧
    evaluation_error_report.resolved = false ∧
    ∀ w ∈ (process_instance_morph ts pred run_id env).writes,
      w.isTestOutput = false := by
  refine ⟨?_, ?_, rfl, rfl, ?_⟩ <;>
    simp [process_instance_morph, hprov, hpatch, hstrict, hfuzzy,
      errorOutcome, FileWrite.isTestOutput]

/-- C6, witness: the concrete double-failure run. -/
theorem claim6_witness :
    (process_instance_morph tsA predA "run1" envPatchFail).output.errored
        = true ∧
    (process_instance_morph tsA predA "run1" envPatchFail).output.report_json
        = ReportPayload.errorEntry evaluation_error_report ∧
    evaluation_error_report.patch_successfully_applied = false ∧
    evaluation_error_report.resolved = false ∧
    ∀ w ∈ (process_instance_morph tsA predA "run1" envPatchFail).writes,
      w.isTestOutput = false :=
  claim6_patch_double_failure tsA predA "run1" envPatchFail
    (by decide) (by decide) (by decide) (by decide)

/-! Claim C7. -/

/-- C7: for every job whose patch text is empty or absent, the executor
issues no patch-step command (no patch write, no strict or fuzzy
application) and the remote command trace goes directly from provisioning
to the test-execution sequence. -/
theorem claim7_empty_patch_skips_patch_step (ts : TestSpec)
    (pred : Prediction) (run_id : String) (env : MorphEnv)
    (hprov : env.provision_ok = true)
    (hpatch : pred.model_patch.getD "" = "") :
    (process_instance_morph ts pred run_id env).commands =
      [VMCommand.gitDiff, VMCommand.evalSetup (djangoHack ts.eval_script),
       VMCommand.runEval (run_command ts.instance_id), VMCommand.gitDiff] ∧
    ∀ c ∈ (process_instance_morph ts pred run_id env).commands,
      c.isPatchStep = false := by
  have hcmds : (process_instance_morph ts pred run_id env).commands =
      [VMCommand.gitDiff, VMCommand.evalSetup (djangoHack ts.eval_script),
       VMCommand.runEval (run_command ts.instance_id), VMCommand.gitDiff] := by
    rcases hg : env.grading with e | c <;>
      simp [process_instance_morph, hprov, hpatch, hg]
  refine ⟨hcmds, ?_⟩
  rw [hcmds]
  intro c hc
  simp only [List.mem_cons, List.not_mem_nil, or_false] at hc
  rcases hc with rfl | rfl | rfl | rfl <;> rfl

/-- C7, witness: the concrete empty-patch run issues exactly the
test-execution commands. -/
theorem claim7_witness :
    (process_instance_morph tsA predEmptyPatch "run1" envGradeFail).commands =
      [VMCommand.gitDiff, VMCommand.evalSetup (djangoHack tsA.eval_script),
       VMCommand.runEval (run_command tsA.instance_id), VMCommand.gitDiff] ∧
    ∀ c ∈ (process_instance_morph tsA predEmptyPatch "run1"
        envGradeFail).commands, c.isPatchStep = false :=
  claim7_empty_patch_skips_patch_step tsA predEmptyPatch "run1" envGradeFail
    (by decide) (by decide)

/-! Claim C8. -/

set_option maxRecDepth 8000 in
/-- C8: the unset-`PYTHONPATH` override occurs in a job's test invocation
command exactly when the job's instance identifier contains the marker
substring `pylint`, and for no other job. -/
theorem claim8_pylint_hack (instance_id : String) :
    strContainsSubstr (run_command instance_id) "PYTHONPATH=" =
      strContainsSubstr instance_id "pylint" := by
  unfold run_command pylint_hack_applied
  cases h : strContainsSubstr instance_id "pylint" <;> simp [h] <;> decide

/-! Claim C9. -/

/-- C9: on every failure path of the executor — patch failure, provisioning
failure, or execution/grading failure — the persisted error report hardcodes
`patch_exists = true` and `patch_is_None = false`, regardless of the job's
patch text and of where the failure occurred. -/
theorem claim9_error_report_hardcoded (ts : TestSpec) (pred : Prediction)
    (run_id : String) (env : MorphEnv)
    (h : (process_instance_morph ts pred run_id env).output.errored = true) :
    ∃ e : ErrorReportEntry,
      (process_instance_morph ts pred run_id env).output.report_json =
        ReportPayload.errorEntry e ∧
      e.patch_exists = true ∧ e.patch_is_None = false := by
  by_cases hp : env.provision_ok = false
  · exact ⟨generic_error_report,
      by simp [process_instance_morph, hp, errorOutcome], rfl, rfl⟩
  · have hp' : env.provision_ok = true := by
      revert hp; cases env.provision_ok <;> simp
    by_cases hd : pred.model_patch.getD "" = ""
    · rcases hg : env.grading with e | c
      · exact ⟨generic_error_report,
          by simp [process_instance_morph, hp', hd, hg, errorOutcome],
          rfl, rfl⟩
      · exact absurd h (by simp [process_instance_morph, hp', hd, hg])
    · by_cases hs : env.apply_strict_res.exit_code = 0
      · rcases hg : env.grading with e | c
        · exact ⟨generic_error_report,
            by simp [process_instance_morph, hp', hd, hs, hg, errorOutcome],
            rfl, rfl⟩
        · exact absurd h (by simp [process_instance_morph, hp', hd, hs, hg])
      · by_cases hf : env.apply_fuzzy_res.exit_code = 0
        · rcases hg : env.grading with e | c
          · exact ⟨generic_error_report,
              by simp [process_instance_morph, hp', hd, hs, hf, hg,
                errorOutcome], rfl, rfl⟩
          · exact absurd h
              (by simp [process_instance_morph, hp', hd, hs, hf, hg])
        · exact ⟨evaluation_error_report,
            by simp [process_instance_morph, hp', hd, hs, hf, errorOutcome],
            rfl, rfl⟩

/-- C9, witness: a provisioning failure on a job with an empty patch — a
failure before any patch handling — still reports `patch_exists = true` and
`patch_is_None = false`. -/
theorem claim9_witness :
    ∃ e : ErrorReportEntry,
      (process_instance_morph tsA predEmptyPatch "run1"
          envProvisionFail).output.report_json =
        ReportPayload.errorEntry e ∧
      e.patch_exists = true ∧ e.patch_is_None = false :=
  claim9_error_report_hardcoded tsA predEmptyPatch "run1" envProvisionFail
    (by decide)

/-! Claim C10. -/

/-- C10: a prediction record lacking a model identifier gets the literal
path component `"None"`, so all such predictions in a run share the
artifact directory `<log_root>/<run_id>/None/<instance_id>/`. -/
theorem claim10_missing_model_name (pred pred2 : Prediction)
    (run_id iid : String)
    (h : pred.model_name_or_path = none)
    (h2 : pred2.model_name_or_path = none) :
    get_log_dir pred run_id iid =
      RUN_EVALUATION_LOG_DIR ++ [run_id, "None", iid] ∧
    get_log_dir pred run_id iid = get_log_dir pred2 run_id iid := by
  have hn : replace_slashes "None" = "None" := by decide
  refine ⟨?_, ?_⟩ <;> simp [get_log_dir, h, h2, hn]

/-- C10, witness: two concrete model-less predictions share the `None`
artifact directory. -/
theorem claim10_witness :
    get_log_dir predNoModel "run1" "inst-1" =
      RUN_EVALUATION_LOG_DIR ++ ["run1", "None", "inst-1"] ∧
    get_log_dir predNoModel "run1" "inst-1" =
      get_log_dir predNoModelB "run1" "inst-1" :=
  claim10_missing_model_name predNoModel predNoModelB "run1" "inst-1"
    rfl rfl

end EvalSwebench
